import Mathlib

/-!
Verification of the da-vinci geometry engine (`src/da_vinci/images.py`).

The image wrapper in `images.py` delegates its geometry to three helpers
imported from `da_vinci.utils` — `parse_dimension`, `calculate_dimensions`
and `get_box_dimensions` — whose bodies are not part of the sources at
hand; they are modelled here from the specification (§4.1–§4.3), as
marked on each definition.  The wrapper itself (`Image.resize`,
`Image.crop`, `Image.flip`) is embedded directly from `images.py`.

All arithmetic is exact integer arithmetic: "round to nearest" on a
fraction `a / b` (with `b > 0`) is computed as `(2*a + b) / (2*b)` with
floor division, which equals `⌊a/b + 1/2⌋` (nearest integer, ties
rounded up), and the rational scale factors of §4.2 are handled by
cross-multiplication, so every definition is executable.
-/

set_option linter.unusedVariables false

/-- Round-to-nearest (ties up) of the fraction `a / b`, for `b > 0`, in
exact integer arithmetic: `(2*a + b) / (2*b) = ⌊a/b + 1/2⌋`. -/
def roundDiv (a b : Int) : Int := (2 * a + b) / (2 * b)

/-- Modelled from the spec: the single error kind of the geometry engine
(§7): one InvalidInput kind covers all contract violations. -/
inductive GeometryError where
  | invalidInput (msg : String)
deriving DecidableEq

/-- Modelled from the spec: a LengthSpec (§3) is either an absolute
integer or a percentage of a reference total. -/
inductive LengthSpec where
  | absolute (n : Int)
  | percent (p : Int)
deriving DecidableEq

/-- Modelled from the spec: a ResizeMethod (§3) is one of Stretch, Fit,
Fill; `images.py` passes these as the strings 'stretch', 'fit', 'fill'. -/
inductive ResizeMethod where
  | stretch
  | fit
  | fill
deriving DecidableEq

/-- Modelled from the spec: `da_vinci.utils.parse_dimension`
(DimensionParser, §4.1).  An absolute spec is returned unchanged; a
percentage `p` resolves to `round(total * p / 100)`; a percentage given
alongside a negative total fails with InvalidInput. -/
def parse_dimension (spec : LengthSpec) (total : Int) :
    Except GeometryError Int :=
  match spec with
  | .absolute n => .ok n
  | .percent p =>
    if total < 0 then
      .error (.invalidInput "percentage requires a non-negative total")
    else
      .ok (roundDiv (total * p) 100)

/-- Modelled from the spec: the output clamp of §4.2 step 4 — each output
dimension must be ≥ 1 after rounding; a rounded value of 0 (or anything
below 1) is clamped to 1. -/
def clampDim (n : Int) : Int := max 1 n

/-- Modelled from the spec: `da_vinci.utils.calculate_dimensions`
(ResizeCalculator, §4.2).  Both targets absent fails with InvalidInput;
exactly one absent derives the missing axis from the source aspect ratio
as `round(present * sourceOther / sourcePresent)` ignoring `method`;
with both present, Stretch returns the request verbatim, Fit uses
`scale = min(w / sw, h / sh)` and Fill `scale = max(w / sw, h / sh)`,
each returning `(round(sw * scale), round(sh * scale))`.  The rational
`min`/`max` is decided by cross-multiplication (`w / sw ≤ h / sh ↔
w * sh ≤ h * sw` for positive sources) and `round(x * a / b)` is computed
as `roundDiv (x * a) b`; every output component passes through the §4.2
step-4 clamp `clampDim`. -/
def calculate_dimensions (width height : Option Int) (sw sh : Int)
    (method : ResizeMethod) : Except GeometryError (Int × Int) :=
  match width, height with
  | none, none =>
    .error (.invalidInput "at least one target dimension required")
  | some w, none =>
    .ok (clampDim w, clampDim (roundDiv (w * sh) sw))
  | none, some h =>
    .ok (clampDim (roundDiv (h * sw) sh), clampDim h)
  | some w, some h =>
    match method with
    | .stretch => .ok (clampDim w, clampDim h)
    | .fit =>
      if w * sh ≤ h * sw then
        .ok (clampDim (roundDiv (sw * w) sw), clampDim (roundDiv (sh * w) sw))
      else
        .ok (clampDim (roundDiv (sw * h) sh), clampDim (roundDiv (sh * h) sh))
    | .fill =>
      if w * sh ≤ h * sw then
        .ok (clampDim (roundDiv (sw * h) sh), clampDim (roundDiv (sh * h) sh))
      else
        .ok (clampDim (roundDiv (sw * w) sw), clampDim (roundDiv (sh * w) sw))

/-- Modelled from the spec: a Box (§3) — four integers (left, top, right,
bottom) in source pixel coordinates. -/
structure Box where
  left : Int
  top : Int
  right : Int
  bottom : Int
deriving DecidableEq

/-- Modelled from the spec: one axis of CropBoxCalculator (§4.3 steps
2–3).  A span of `len` centered at `c` (`left = c - len/2`,
`right = left + len`); if the requested span exceeds the source extent
the axis is clamped to the full extent `(0, total)`, otherwise an
out-of-bounds span is shifted (not shrunk) back into `[0, total]`. -/
def clampAxis (c len total : Int) : Int × Int :=
  if total < len then
    (0, total)
  else
    let l := c - len / 2
    let l' := if l < 0 then 0 else if total < l + len then total - len else l
    (l', l' + len)

/-- Modelled from the spec: `da_vinci.utils.get_box_dimensions`
(CropBoxCalculator, §4.3).  Fails with InvalidInput when a requested
dimension is ≤ 0; otherwise builds the box centered at `center`,
shifted/clamped per axis by `clampAxis`. -/
def get_box_dimensions (w h sw sh : Int) (center : Int × Int) :
    Except GeometryError Box :=
  if w ≤ 0 ∨ h ≤ 0 then
    .error (.invalidInput "crop dimensions must be positive")
  else
    let x := clampAxis center.1 w sw
    let y := clampAxis center.2 h sh
    .ok ⟨x.1, y.1, x.2, y.2⟩

/-- Transpose constants of the external engine used by `Image.flip`
(`PILImage.FLIP_LEFT_RIGHT` / `PILImage.FLIP_TOP_BOTTOM`). -/
inductive TransposeMethod where
  | flipLeftRight
  | flipTopBottom
deriving DecidableEq

/-- The external engine's image value, embedded as the term algebra of
the operations `images.py` hands to it: a decoded source with its pixel
size, and the results of its resize / crop / transpose primitives. -/
inductive PILImage where
  | source (width height : Int)
  | resized (img : PILImage) (size : Int × Int)
  | cropped (img : PILImage) (box : Box)
  | transposed (img : PILImage) (method : TransposeMethod)
deriving DecidableEq

/-- Pixel size reported by the external engine (`PILImage.size`): a crop
has the size of its box, a resize the requested size, a transpose by
flipping keeps the size. -/
def PILImage.size : PILImage → Int × Int
  | .source w h => (w, h)
  | .resized _ s => s
  | .cropped _ b => (b.right - b.left, b.bottom - b.top)
  | .transposed i _ => i.size

/-- State of a `da_vinci.images.Image` object: the wrapped engine image
and the `_format`, `_quality`, `filename`, `name` attributes set in
`__init__`. -/
structure ImageState where
  pilImage : PILImage
  format : Option String
  quality : Option Int
  filename : Option String
  name : String
deriving DecidableEq

/-- `Image.width` (images.py line 36): first component of the engine
image's size. -/
def ImageState.width (st : ImageState) : Int := st.pilImage.size.1

/-- `Image.height` (images.py line 40): second component of the engine
image's size. -/
def ImageState.height (st : ImageState) : Int := st.pilImage.size.2

/-- `Image.resize` (images.py lines 120–133): computes the target size
with `calculate_dimensions` and assigns the engine's resized image to
`self._pil_image`; a raised error leaves the state unchanged.  The
mutation is modelled by returning the post-state together with the
raised error, if any. -/
def Image.resize (st : ImageState) (width height : Option Int)
    (method : ResizeMethod) : ImageState × Option GeometryError :=
  match calculate_dimensions width height st.width st.height method with
  | .ok size => ({ st with pilImage := .resized st.pilImage size }, none)
  | .error e => (st, some e)

/-- `Image.crop` (images.py lines 135–147): resolves the two center
components with `parse_dimension` against the image width and height (in
that order), computes the box with `get_box_dimensions`, and assigns the
engine's cropped image to `self._pil_image`; a raised error leaves the
state unchanged.  The `shape` argument is accepted but never used. -/
def Image.crop (st : ImageState) (width height : Int)
    (center : LengthSpec × LengthSpec) (shape : String) :
    ImageState × Option GeometryError :=
  match parse_dimension center.1 st.width, parse_dimension center.2 st.height with
  | .ok cx, .ok cy =>
    match get_box_dimensions width height st.width st.height (cx, cy) with
    | .ok box => ({ st with pilImage := .cropped st.pilImage box }, none)
    | .error e => (st, some e)
  | .error e, _ => (st, some e)
  | .ok _, .error e => (st, some e)

/-- `Image.flip` (images.py lines 86–93): transposes the engine image for
direction 'horizontal' or 'vertical', and raises
`ValueError('Direction must be "horizontal" or "vertical"')` for any
other direction, leaving the state unchanged; the raised message is
returned alongside the post-state. -/
def Image.flip (st : ImageState) (direction : String) :
    ImageState × Option String :=
  if direction = "horizontal" then
    ({ st with pilImage := .transposed st.pilImage .flipLeftRight }, none)
  else if direction = "vertical" then
    ({ st with pilImage := .transposed st.pilImage .flipTopBottom }, none)
  else
    (st, some "Direction must be \"horizontal\" or \"vertical\"")

/-- A concrete image state used to instantiate universally quantified
theorems: a freshly opened 100×100 source image. -/
def sampleImage : ImageState :=
  ⟨.source 100 100, some "jpeg", none, some "food.jpg", "food.jpg"⟩

/-! ### Arithmetic facts about `roundDiv` -/

/-- Exactness: rounding a fraction whose division is exact returns the
quotient — `roundDiv (b * a) b = a` for positive `b`. -/
theorem roundDiv_mul_cancel (a b : Int) (hb : 0 < b) :
    roundDiv (b * a) b = a := by
  unfold roundDiv
  have h1 : 2 * (b * a) + b = b + a * (2 * b) := by ring
  rw [h1, Int.add_mul_ediv_right _ _ (by omega : (2 * b) ≠ 0),
    Int.ediv_eq_zero_of_lt (by omega) (by omega)]
  omega

/-- Monotonicity of `roundDiv` in the numerator, for positive
denominators. -/
theorem roundDiv_le_roundDiv (a a' b : Int) (hb : 0 < b) (h : a ≤ a') :
    roundDiv a b ≤ roundDiv a' b :=
  Int.ediv_le_ediv (by omega) (by omega)

/-! ### C1 — DimensionParser -/

/-- C1 counterexample: the claim asserts `resolve` returns
`round(total * p / 100)` for every integer total, but for a percentage
spec with the negative total −100 the parser fails with InvalidInput
instead of returning `round(-100 * 50 / 100) = -50`. -/
theorem parse_dimension_negative_total_cex :
    parse_dimension (.percent 50) (-100) =
      .error (.invalidInput "percentage requires a non-negative total") ∧
    roundDiv ((-100) * 50) 100 = -50 :=
  ⟨rfl, rfl⟩

/-- C1 (amended): for every LengthSpec and integer total, `resolve`
returns an absolute spec unchanged (no dependency on `total`), and for a
non-negative total returns `round(total * p / 100)` on a percentage `p`
(a percentage with a negative total fails with InvalidInput);
in particular `resolve(50%, 200) = 100`, `resolve(150%, 200) = 300`, and
`resolve(absolute 30, t) = 30` for every `t`. -/
theorem parse_dimension_spec :
    (∀ (n total : Int), parse_dimension (.absolute n) total = .ok n) ∧
    (∀ (p total : Int), 0 ≤ total →
      parse_dimension (.percent p) total = .ok (roundDiv (total * p) 100)) ∧
    parse_dimension (.percent 50) 200 = .ok 100 ∧
    parse_dimension (.percent 150) 200 = .ok 300 ∧
    (∀ total : Int, parse_dimension (.absolute 30) total = .ok 30) := by
  refine ⟨fun n total => rfl, fun p total ht => ?_, rfl, rfl, fun total => rfl⟩
  simp only [parse_dimension]
  rw [if_neg (by omega)]

/-- C1 witness: the percentage branch of `parse_dimension_spec` at the
concrete input `(50%, 200)`. -/
theorem parse_dimension_spec_witness :
    parse_dimension (.percent 50) 200 = .ok (roundDiv (200 * 50) 100) :=
  parse_dimension_spec.2.1 50 200 (by decide)

/-! ### C2 — aspect-ratio derivation of a missing dimension -/

/-- C2 counterexample: with source 1000×1, requested width 1 and absent
height, the aspect-ratio formula rounds to
`round(1 * 1 / 1000) = 0`, but the computation returns height 1 (the
§4.2 step-4 clamp), so the result is not the bare rounded value. -/
theorem calculate_dimensions_derive_cex :
    calculate_dimensions (some 1) none 1000 1 .stretch = .ok (1, 1) ∧
    roundDiv (1 * 1) 1000 = 0 :=
  ⟨rfl, rfl⟩

/-- C2 (amended): for every positive source size and request with exactly
one of width/height absent, the missing dimension is derived as
`round(present * sourceOther / sourcePresent)` and then clamped below at
1 (the step-4 output clamp, which also applies to the present axis), and
the result does not depend on the method argument. -/
theorem calculate_dimensions_derives_missing (w h sw sh : Int)
    (m m' : ResizeMethod) (hsw : 0 < sw) (hsh : 0 < sh) :
    calculate_dimensions (some w) none sw sh m =
      .ok (max 1 w, max 1 (roundDiv (w * sh) sw)) ∧
    calculate_dimensions none (some h) sw sh m =
      .ok (max 1 (roundDiv (h * sw) sh), max 1 h) ∧
    calculate_dimensions (some w) none sw sh m =
      calculate_dimensions (some w) none sw sh m' ∧
    calculate_dimensions none (some h) sw sh m =
      calculate_dimensions none (some h) sw sh m' :=
  ⟨rfl, rfl, rfl, rfl⟩

/-- C2 witness: deriving the absent height for a 200×50 source and
requested width 100 gives `round(100 * 50 / 200) = 25`, for any two
methods. -/
theorem calculate_dimensions_derives_missing_witness :
    calculate_dimensions (some 100) none 200 50 .fit = .ok (100, 25) := by
  have h := (calculate_dimensions_derives_missing 100 0 200 50 .fit .fill
    (by decide) (by decide)).1
  rw [h]
  rfl

/-! ### C3 — Stretch -/

/-- C3: for every positive source size and positive present requested
width and height, Stretch returns exactly the requested pair,
independent of the source size; in particular resizing an image already
of the requested size with Stretch returns that size unchanged. -/
theorem calculate_dimensions_stretch (w h sw sh : Int) (hsw : 0 < sw)
    (hsh : 0 < sh) (hw : 1 ≤ w) (hh : 1 ≤ h) :
    calculate_dimensions (some w) (some h) sw sh .stretch = .ok (w, h) ∧
    calculate_dimensions (some w) (some h) w h .stretch = .ok (w, h) := by
  have hres : ∀ sw' sh' : Int,
      calculate_dimensions (some w) (some h) sw' sh' .stretch = .ok (w, h) := by
    intro sw' sh'
    simp only [calculate_dimensions, clampDim]
    rw [max_eq_right hw, max_eq_right hh]
  exact ⟨hres sw sh, hres w h⟩

/-- C3 witness: stretching a 640×480 source to 123×77 yields exactly
123×77, and stretching a 123×77 source to the same target leaves it
unchanged. -/
theorem calculate_dimensions_stretch_witness :
    calculate_dimensions (some 123) (some 77) 640 480 .stretch = .ok (123, 77) ∧
    calculate_dimensions (some 123) (some 77) 123 77 .stretch = .ok (123, 77) :=
  calculate_dimensions_stretch 123 77 640 480 (by decide) (by decide)
    (by decide) (by decide)

/-! ### C4 — Fit -/

/-- C4 counterexample: fitting a 100×1 source into a 1×1 box uses
`scale = min(1/100, 1/1) = 1/100`, whose rounded height is
`round(1 * 1/100) = 0`, but the computation returns height 1 (the §4.2
step-4 clamp), so the result is not the bare pair of rounded values. -/
theorem calculate_dimensions_fit_cex :
    calculate_dimensions (some 1) (some 1) 100 1 .fit = .ok (1, 1) ∧
    roundDiv (1 * 1) 100 = 0 :=
  ⟨rfl, rfl⟩

/-- C4 (amended): for every positive source size and positive requested
width and height, Fit returns `(round(sw * s), round(sh * s))` with
`s = min(w / sw, h / sh)`, each component clamped below at 1; the
result's width is ≤ the requested width, its height ≤ the requested
height, and at least one axis equals its requested value exactly. -/
theorem calculate_dimensions_fit (w h sw sh : Int) (hsw : 0 < sw)
    (hsh : 0 < sh) (hw : 1 ≤ w) (hh : 1 ≤ h) :
    (w * sh ≤ h * sw →
      calculate_dimensions (some w) (some h) sw sh .fit =
        .ok (max 1 (roundDiv (sw * w) sw), max 1 (roundDiv (sh * w) sw))) ∧
    (¬ w * sh ≤ h * sw →
      calculate_dimensions (some w) (some h) sw sh .fit =
        .ok (max 1 (roundDiv (sw * h) sh), max 1 (roundDiv (sh * h) sh))) ∧
    ∃ outW outH : Int,
      calculate_dimensions (some w) (some h) sw sh .fit = .ok (outW, outH) ∧
      outW ≤ w ∧ outH ≤ h ∧ (outW = w ∨ outH = h) := by
  refine ⟨?_, ?_, ?_⟩
  · intro hc
    simp only [calculate_dimensions, clampDim]
    rw [if_pos hc]
  · intro hc
    simp only [calculate_dimensions, clampDim]
    rw [if_neg hc]
  by_cases hc : w * sh ≤ h * sw
  · have e1 : roundDiv (sw * w) sw = w := roundDiv_mul_cancel w sw hsw
    have hle : sh * w ≤ sw * h := by
      rw [mul_comm sh w, mul_comm sw h]
      exact hc
    have e3 : roundDiv (sh * w) sw ≤ h :=
      calc roundDiv (sh * w) sw ≤ roundDiv (sw * h) sw :=
            roundDiv_le_roundDiv _ _ _ hsw hle
        _ = h := roundDiv_mul_cancel h sw hsw
    refine ⟨w, max 1 (roundDiv (sh * w) sw), ?_, le_refl w,
      max_le hh e3, Or.inl rfl⟩
    simp only [calculate_dimensions, clampDim]
    rw [if_pos hc, e1, max_eq_right hw]
  · have e1 : roundDiv (sh * h) sh = h := roundDiv_mul_cancel h sh hsh
    push_neg at hc
    have hle : sw * h ≤ sh * w := by
      rw [mul_comm sw h, mul_comm sh w]
      exact le_of_lt hc
    have e3 : roundDiv (sw * h) sh ≤ w :=
      calc roundDiv (sw * h) sh ≤ roundDiv (sh * w) sh :=
            roundDiv_le_roundDiv _ _ _ hsh hle
        _ = w := roundDiv_mul_cancel w sh hsh
    refine ⟨max 1 (roundDiv (sw * h) sh), h, ?_, max_le hw e3,
      le_refl h, Or.inr rfl⟩
    simp only [calculate_dimensions, clampDim]
    rw [if_neg (by omega), e1, max_eq_right hh]

/-- C4 witness: fitting a 200×100 source into a 50×50 box gives 50×25
(width matches, height within the box). -/
theorem calculate_dimensions_fit_witness :
    calculate_dimensions (some 50) (some 50) 200 100 .fit = .ok (50, 25) := by
  have h := (calculate_dimensions_fit 50 50 200 100 (by decide) (by decide)
    (by decide) (by decide)).1 (by decide)
  rw [h]
  rfl

/-! ### C5 — Fill -/

/-- C5: for every positive source size and positive requested width and
height, Fill returns exactly `(round(sw * s), round(sh * s))` with
`s = max(w / sw, h / sh)` (no clamping occurs); the result's width is ≥
the requested width, its height ≥ the requested height, and at least one
axis equals its requested value exactly. -/
theorem calculate_dimensions_fill (w h sw sh : Int) (hsw : 0 < sw)
    (hsh : 0 < sh) (hw : 1 ≤ w) (hh : 1 ≤ h) :
    (w * sh ≤ h * sw →
      calculate_dimensions (some w) (some h) sw sh .fill =
        .ok (roundDiv (sw * h) sh, roundDiv (sh * h) sh)) ∧
    (¬ w * sh ≤ h * sw →
      calculate_dimensions (some w) (some h) sw sh .fill =
        .ok (roundDiv (sw * w) sw, roundDiv (sh * w) sw)) ∧
    ∃ outW outH : Int,
      calculate_dimensions (some w) (some h) sw sh .fill = .ok (outW, outH) ∧
      w ≤ outW ∧ h ≤ outH ∧ (outW = w ∨ outH = h) := by
  by_cases hc : w * sh ≤ h * sw
  · have e1 : roundDiv (sh * h) sh = h := roundDiv_mul_cancel h sh hsh
    have hle : sh * w ≤ sw * h := by
      rw [mul_comm sh w, mul_comm sw h]
      exact hc
    have e3 : w ≤ roundDiv (sw * h) sh :=
      calc w = roundDiv (sh * w) sh := (roundDiv_mul_cancel w sh hsh).symm
        _ ≤ roundDiv (sw * h) sh := roundDiv_le_roundDiv _ _ _ hsh hle
    have heq : calculate_dimensions (some w) (some h) sw sh .fill =
        .ok (roundDiv (sw * h) sh, roundDiv (sh * h) sh) := by
      simp only [calculate_dimensions, clampDim]
      rw [if_pos hc, e1, max_eq_right hh, max_eq_right (le_trans hw e3)]
    refine ⟨fun _ => heq, fun hc' => absurd hc hc', roundDiv (sw * h) sh, h,
      ?_, e3, le_refl h, Or.inr rfl⟩
    rw [heq, e1]
  · have e1 : roundDiv (sw * w) sw = w := roundDiv_mul_cancel w sw hsw
    have hcc : h * sw < w * sh := by
      push_neg at hc
      exact hc
    have hle : sw * h ≤ sh * w := by
      rw [mul_comm sw h, mul_comm sh w]
      exact le_of_lt hcc
    have e3 : h ≤ roundDiv (sh * w) sw :=
      calc h = roundDiv (sw * h) sw := (roundDiv_mul_cancel h sw hsw).symm
        _ ≤ roundDiv (sh * w) sw := roundDiv_le_roundDiv _ _ _ hsw hle
    have heq : calculate_dimensions (some w) (some h) sw sh .fill =
        .ok (roundDiv (sw * w) sw, roundDiv (sh * w) sw) := by
      simp only [calculate_dimensions, clampDim]
      rw [if_neg hc, e1, max_eq_right hw, max_eq_right (le_trans hh e3)]
    refine ⟨fun hc' => absurd hc' hc, fun _ => heq, w, roundDiv (sh * w) sw,
      ?_, le_refl w, e3, Or.inl rfl⟩
    rw [heq, e1]

/-- C5 witness: filling a 50×50 box from a 200×100 source gives 100×50
(height matches, width covers the box). -/
theorem calculate_dimensions_fill_witness :
    calculate_dimensions (some 50) (some 50) 200 100 .fill = .ok (100, 50) := by
  have h := (calculate_dimensions_fill 50 50 200 100 (by decide) (by decide)
    (by decide) (by decide)).1 (by decide)
  rw [h]
  rfl

/-! ### C6 — output dimensions are at least 1 -/

/-- C6: whenever the resize computation returns a size — any method, any
source size, any request — both components of the returned pair are
≥ 1: values that would round to 0 (or below) are clamped to 1. -/
theorem calculate_dimensions_ge_one (width height : Option Int)
    (sw sh : Int) (m : ResizeMethod) (r : Int × Int)
    (hr : calculate_dimensions width height sw sh m = .ok r) :
    1 ≤ r.1 ∧ 1 ≤ r.2 := by
  rcases width with _ | w
  · rcases height with _ | h
    · exact absurd hr (by simp [calculate_dimensions])
    · simp only [calculate_dimensions, clampDim, Except.ok.injEq] at hr
      subst hr
      exact ⟨le_max_left _ _, le_max_left _ _⟩
  · rcases height with _ | h
    · simp only [calculate_dimensions, clampDim, Except.ok.injEq] at hr
      subst hr
      exact ⟨le_max_left _ _, le_max_left _ _⟩
    · cases m
      · simp only [calculate_dimensions, clampDim, Except.ok.injEq] at hr
        subst hr
        exact ⟨le_max_left _ _, le_max_left _ _⟩
      · simp only [calculate_dimensions, clampDim] at hr
        split at hr <;>
          (simp only [Except.ok.injEq] at hr
           subst hr
           exact ⟨le_max_left _ _, le_max_left _ _⟩)
      · simp only [calculate_dimensions, clampDim] at hr
        split at hr <;>
          (simp only [Except.ok.injEq] at hr
           subst hr
           exact ⟨le_max_left _ _, le_max_left _ _⟩)

/-- C6 witness: the invariant at a concrete computed size. -/
theorem calculate_dimensions_ge_one_witness :
    (1 : Int) ≤ ((5 : Int), (7 : Int)).1 ∧ (1 : Int) ≤ ((5 : Int), (7 : Int)).2 :=
  calculate_dimensions_ge_one (some 5) (some 7) 3 4 .stretch (5, 7) rfl

/-! ### C7 — crop box invariants -/

/-- Per-axis behavior of `clampAxis`: the resulting span lies inside
`[0, total]`, is non-empty, keeps the requested length when it fits in
the source, and is clamped to the full extent when it does not. -/
theorem clampAxis_spec (c len total : Int) (hl : 0 < len) (ht : 0 < total) :
    0 ≤ (clampAxis c len total).1 ∧
    (clampAxis c len total).1 < (clampAxis c len total).2 ∧
    (clampAxis c len total).2 ≤ total ∧
    (len ≤ total →
      (clampAxis c len total).2 - (clampAxis c len total).1 = len) ∧
    (total < len →
      (clampAxis c len total).1 = 0 ∧ (clampAxis c len total).2 = total) := by
  unfold clampAxis
  split
  · dsimp only
    omega
  · dsimp only
    split
    · omega
    · split <;> omega

/-- C7: for positive source and positive requested crop dimensions and
every resolved center, the crop-box computation returns a box with
`0 ≤ left < right ≤ sourceWidth` and `0 ≤ top < bottom ≤ sourceHeight`;
an axis whose requested size fits in the source keeps exactly that size
(out-of-bounds boxes are shifted, not shrunk), and an axis whose
requested size exceeds the source is clamped to the full extent; in
particular source 100×100, request 40×40, center (0%,0%) — which
resolves to pixel center (0,0) — yields the box (0, 0, 40, 40). -/
theorem get_box_dimensions_spec (w h sw sh cx cy : Int) (hw : 0 < w)
    (hh : 0 < h) (hsw : 0 < sw) (hsh : 0 < sh) :
    (∃ b : Box, get_box_dimensions w h sw sh (cx, cy) = .ok b ∧
      0 ≤ b.left ∧ b.left < b.right ∧ b.right ≤ sw ∧
      0 ≤ b.top ∧ b.top < b.bottom ∧ b.bottom ≤ sh ∧
      (w ≤ sw → b.right - b.left = w) ∧
      (sw < w → b.left = 0 ∧ b.right = sw) ∧
      (h ≤ sh → b.bottom - b.top = h) ∧
      (sh < h → b.top = 0 ∧ b.bottom = sh)) ∧
    parse_dimension (.percent 0) 100 = .ok 0 ∧
    get_box_dimensions 40 40 100 100 (0, 0) = .ok ⟨0, 0, 40, 40⟩ := by
  refine ⟨?_, rfl, rfl⟩
  have hx := clampAxis_spec cx w sw hw hsw
  have hy := clampAxis_spec cy h sh hh hsh
  refine ⟨⟨(clampAxis cx w sw).1, (clampAxis cy h sh).1,
    (clampAxis cx w sw).2, (clampAxis cy h sh).2⟩, ?_,
    hx.1, hx.2.1, hx.2.2.1, hy.1, hy.2.1, hy.2.2.1,
    hx.2.2.2.1, hx.2.2.2.2, hy.2.2.2.1, hy.2.2.2.2⟩
  unfold get_box_dimensions
  rw [if_neg (by omega)]

/-- C7 witness: the invariants at the concrete example — source 100×100,
request 40×40, center (0,0). -/
theorem get_box_dimensions_spec_witness :
    ∃ b : Box, get_box_dimensions 40 40 100 100 ((0 : Int), (0 : Int)) = .ok b ∧
      0 ≤ b.left ∧ b.left < b.right ∧ b.right ≤ 100 ∧
      0 ≤ b.top ∧ b.top < b.bottom ∧ b.bottom ≤ 100 ∧
      ((40 : Int) ≤ 100 → b.right - b.left = 40) ∧
      ((100 : Int) < 40 → b.left = 0 ∧ b.right = 100) ∧
      ((40 : Int) ≤ 100 → b.bottom - b.top = 40) ∧
      ((100 : Int) < 40 → b.top = 0 ∧ b.bottom = 100) :=
  (get_box_dimensions_spec 40 40 100 100 0 0 (by decide) (by decide)
    (by decide) (by decide)).1

/-! ### C8 — InvalidInput errors with no partial result -/

/-- C8: every contract violation fails synchronously with the single
InvalidInput error kind and leaves the image state unchanged: `resize`
with both target dimensions absent raises InvalidInput without touching
the state, and the crop-box computation — and hence `crop` — raises
InvalidInput whenever a requested crop dimension is ≤ 0, again leaving
the state unchanged. -/
theorem invalid_input_errors (st : ImageState) (m : ResizeMethod)
    (w h sw sh : Int) (c : Int × Int) (center : LengthSpec × LengthSpec)
    (shape : String) (hwh : w ≤ 0 ∨ h ≤ 0) :
    Image.resize st none none m =
      (st, some (.invalidInput "at least one target dimension required")) ∧
    (∃ msg, get_box_dimensions w h sw sh c = .error (.invalidInput msg)) ∧
    (Image.crop st w h center shape).1 = st ∧
    (∃ msg, (Image.crop st w h center shape).2 = some (.invalidInput msg)) := by
  have hbox : ∀ (c' : Int × Int) (sw' sh' : Int),
      get_box_dimensions w h sw' sh' c' =
        .error (.invalidInput "crop dimensions must be positive") := by
    intro c' sw' sh'
    unfold get_box_dimensions
    rw [if_pos hwh]
  have hcrop : (Image.crop st w h center shape).1 = st ∧
      ∃ msg, (Image.crop st w h center shape).2 = some (.invalidInput msg) := by
    unfold Image.crop
    cases hp1 : parse_dimension center.1 st.width with
    | error e1 =>
      cases e1 with
      | invalidInput msg => exact ⟨by simp [hp1], msg, by simp [hp1]⟩
    | ok cx =>
      cases hp2 : parse_dimension center.2 st.height with
      | error e2 =>
        cases e2 with
        | invalidInput msg => exact ⟨by simp [hp1, hp2], msg, by simp [hp1, hp2]⟩
      | ok cy =>
        exact ⟨by simp [hp1, hp2, hbox (cx, cy) st.width st.height],
          "crop dimensions must be positive",
          by simp [hp1, hp2, hbox (cx, cy) st.width st.height]⟩
  exact ⟨rfl, ⟨_, hbox c sw sh⟩, hcrop.1, hcrop.2⟩

/-- C8 witness: a resize of a 100×100 image with no target dimensions and
a crop with requested width 0 both raise InvalidInput and leave the
state untouched. -/
theorem invalid_input_errors_witness :
    Image.resize sampleImage none none .stretch =
      (sampleImage,
        some (.invalidInput "at least one target dimension required")) ∧
    (∃ msg, get_box_dimensions 0 40 100 100 (50, 50) =
      .error (.invalidInput msg)) ∧
    (Image.crop sampleImage 0 40 (.percent 50, .percent 50) "rectangle").1 =
      sampleImage ∧
    (∃ msg, (Image.crop sampleImage 0 40 (.percent 50, .percent 50)
      "rectangle").2 = some (.invalidInput msg)) :=
  invalid_input_errors sampleImage .stretch 0 40 100 100 (50, 50)
    (.percent 50, .percent 50) "rectangle" (Or.inl (by decide))

/-! ### C9 — crop is independent of the `shape` argument -/

/-- C9: for every image state, crop size, and center, `Image.crop`
returns the same post-state and error for any two values of the `shape`
argument: the body of `crop` (images.py lines 135–147) never reads
`shape`. -/
theorem crop_ignores_shape (st : ImageState) (w h : Int)
    (center : LengthSpec × LengthSpec) (shapeA shapeB : String) :
    Image.crop st w h center shapeA = Image.crop st w h center shapeB :=
  rfl

/-! ### C10 — flip direction validation -/

/-- C10: `Image.flip` with a direction other than 'horizontal' or
'vertical' raises `ValueError('Direction must be "horizontal" or
"vertical"')` and leaves the whole image state (engine image, format,
quality, filename, name) unchanged; with 'horizontal' or 'vertical' it
raises nothing. -/
theorem flip_direction_spec (st : ImageState) (d : String) :
    (d ≠ "horizontal" → d ≠ "vertical" →
      Image.flip st d =
        (st, some "Direction must be \"horizontal\" or \"vertical\"")) ∧
    (d = "horizontal" ∨ d = "vertical" → (Image.flip st d).2 = none) := by
  constructor
  · intro h1 h2
    unfold Image.flip
    rw [if_neg h1, if_neg h2]
  · rintro (rfl | rfl)
    · rfl
    · rfl

/-- C10 witness: flipping 'diagonal' raises the ValueError message and
leaves the sample image untouched; flipping 'horizontal' raises
nothing. -/
theorem flip_direction_spec_witness :
    Image.flip sampleImage "diagonal" =
      (sampleImage, some "Direction must be \"horizontal\" or \"vertical\"") ∧
    (Image.flip sampleImage "horizontal").2 = none :=
  ⟨(flip_direction_spec sampleImage "diagonal").1 (by decide) (by decide),
   (flip_direction_spec sampleImage "horizontal").2 (Or.inl rfl)⟩
